import Mathlib

/-!
The fbender testers: DNS and HTTP

A shallow embedding of `tester/dns/tester.go` and `tester/http/tester.go`.

* Go `error` values are modelled by `GoError`; `fmt.Errorf` with `%w` is the
  constructor `GoError.wrap`, carrying the formatted text and the wrapped error.
* Go `interface{}` values are modelled by a sum type of the dynamic types the
  code distinguishes; a pointer is an `Option` (`none` is the nil pointer).
* A run-time panic (nil pointer dereference) is the outcome `Outcome.panic`.
* Side effects of the library executor are explicit state passing over a
  state type `σ`.
* The library functions the testers call (`CreateExecutor` of the bender
  library, the table `RcodeToString` of the DNS library) are parameters.
-/

namespace Fbender

/-! ## Go errors -/

/-- Go error values: `new site text` is a value made by `errors.New(text)` (its
identity is the creation site), `wrap text cause` is the value made by
`fmt.Errorf` with one `%w` verb: `text` is the formatted message and `cause`
the operand of `%w`. -/
inductive GoError where
  | new (site : Nat) (text : String)
  | wrap (text : String) (cause : GoError)
deriving DecidableEq, Repr

/-- The method `Error()`: the message of an error. -/
def GoError.Error : GoError → String
  | .new _ text => text
  | .wrap text _ => text

/-- The method `Unwrap()`. -/
def GoError.Unwrap : GoError → Option GoError
  | .new _ _ => none
  | .wrap _ cause => some cause

/-- The function `errors.Is(err, target)`: `target` occurs on the unwrap chain of `err`. -/
def GoError.Is : GoError → GoError → Bool
  | .new site text, target => decide (GoError.new site text = target)
  | .wrap text cause, target => decide (GoError.wrap text cause = target) || cause.Is target

/-- Result of running Go code that may panic. -/
inductive Outcome (α : Type) where
  | panic
  | ret (a : α)
deriving DecidableEq, Repr

/-- The sentinel `io.EOF`. -/
def ioEOF : GoError := .new 0 "EOF"

/-- The verb `%q` on a string without characters that need escaping (the names
of DNS result codes are upper-case letters): the string in double quotes. -/
def goQuote (s : String) : String := "\"" ++ s ++ "\""

/-- Indexing a Go `map[int]string`: the zero value `""` for an absent key. -/
def mapIndex (m : List (Int × String)) (k : Int) : String :=
  match m.lookup k with
  | some s => s
  | none => ""

/-! ## DNS tester (`tester/dns/tester.go`) -/

namespace Dns

/-- The type `dns.Msg` of the DNS library: the header fields the tester reads
(`Id` is a `uint16`, `Rcode` an `int`) and the question section. -/
structure Msg where
  Id : Nat
  Rcode : Int
  Question : List String
deriving DecidableEq, Repr

/-- ExtendedMsg wraps a dns.Msg with expectations. -/
structure ExtendedMsg where
  Msg : Msg
  Rcode : Int
deriving DecidableEq, Repr

/-- The type `dns.Client` of the DNS library (durations in nanoseconds). -/
structure Client where
  ReadTimeout : Int
  DialTimeout : Int
  WriteTimeout : Int
  Net : String
deriving DecidableEq, Repr

/-- Tester is a load tester for DNS. -/
structure Tester where
  Target : String
  Timeout : Int
  Protocol : String
  client : Option Client
deriving DecidableEq, Repr

/-- Values of type `interface{}` by dynamic type: the nil interface, a
`*ExtendedMsg`, a `*dns.Msg` (each possibly a nil pointer), a string, or a
value of any other type, given by the name `%T` prints. -/
inductive Value where
  | nil
  | ptrExtendedMsg (p : Option ExtendedMsg)
  | ptrMsg (p : Option Msg)
  | str (s : String)
  | other (typeName : String)
deriving DecidableEq, Repr

/-- The verb `%T`: the name of the dynamic type. -/
def Value.typeName : Value → String
  | .nil => "<nil>"
  | .ptrExtendedMsg _ => "*dns.ExtendedMsg"
  | .ptrMsg _ => "*dns.Msg"
  | .str _ => "string"
  | .other name => name

/-- ErrInvalidRequest is an error raised when the request is invalid. -/
def ErrInvalidRequest : GoError := .new 1 "invalid request"

/-- ErrInvalidResponse is raised when the response is invalid. -/
def ErrInvalidResponse : GoError := .new 2 "invalid response"

/-- The type `ResponseValidator` of the bender library:
`func(request, response *dns.Msg) error`. -/
abbrev ResponseValidator := Option Msg → Option Msg → Outcome (Option GoError)

/-- The type `bender.RequestExecutor`:
`func(int64, interface{}) (interface{}, error)`, with its effects on a state `σ`. -/
abbrev BenderRequestExecutor (σ : Type) :=
  Int → Value → σ → Outcome (Value × Option GoError) × σ

/-- The type of the bender library function `CreateExecutor(client, validator, hosts...)`. -/
abbrev CreateExecutor (σ : Type) :=
  Option Client → ResponseValidator → String → BenderRequestExecutor σ

/-- Before is called before the first test. -/
def Tester.Before (t : Tester) (_ : Value) : Tester × Option GoError :=
  ({ t with
      client := some
        { ReadTimeout := t.Timeout
          DialTimeout := t.Timeout
          WriteTimeout := t.Timeout
          Net := t.Protocol } },
   none)

/-- After is called after all tests are finished. -/
def Tester.After (t : Tester) (_ : Value) : Tester := t

/-- BeforeEach is called before every test. -/
def Tester.BeforeEach (t : Tester) (_ : Value) : Tester × Option GoError := (t, none)

/-- AfterEach is called after every test. -/
def Tester.AfterEach (t : Tester) (_ : Value) : Tester := t

/-- The function `validator(request, response *dns.Msg) error`. -/
def validator (request response : Option Msg) : Outcome (Option GoError) :=
  match request, response with
  | some req, some resp =>
    if req.Id ≠ resp.Id then
      .ret (some (.wrap
        (ErrInvalidResponse.Error ++ ": " ++ toString req.Id ++ ", want: " ++ toString resp.Id)
        ErrInvalidResponse))
    else
      .ret none
  | _, _ => .panic

/-- RequestExecutor returns a request executor. The library function
`protocol.CreateExecutor` and the library table `dns.RcodeToString` are the
parameters `createExecutor` and `rcodeToString`. -/
def Tester.RequestExecutor {σ : Type} (createExecutor : CreateExecutor σ)
    (rcodeToString : List (Int × String)) (t : Tester) (_ : Value) :
    BenderRequestExecutor σ × Option GoError :=
  let innerExecutor := createExecutor t.client validator t.Target
  (fun n request w =>
    match request with
    | .ptrExtendedMsg p =>
      match p with
      | none => (.panic, w)
      | some asExtended =>
        match innerExecutor n (.ptrMsg (some asExtended.Msg)) w with
        | (.panic, w1) => (.panic, w1)
        | (.ret (resp, some err), w1) => (.ret (resp, some err), w1)
        | (.ret (resp, none), w1) =>
          match resp with
          | .ptrMsg q =>
            if asExtended.Rcode ≠ -1 then
              match q with
              | none => (.panic, w1)
              | some asMsg =>
                if asExtended.Rcode ≠ asMsg.Rcode then
                  (.ret (resp, some (.wrap
                    (ErrInvalidResponse.Error ++ ": invalid rcode want: "
                      ++ goQuote (mapIndex rcodeToString asExtended.Rcode) ++ ", got: "
                      ++ goQuote (mapIndex rcodeToString asMsg.Rcode))
                    ErrInvalidResponse)), w1)
                else
                  (.ret (resp, none), w1)
            else
              (.ret (resp, none), w1)
          | _ =>
            (.ret (.nil, some (.wrap
              (ErrInvalidResponse.Error ++ ": invalid type, want: *dns.Msg, got: " ++ resp.typeName)
              ErrInvalidResponse)), w1)
    | _ =>
      (.ret (.nil, some (.wrap
        (ErrInvalidRequest.Error ++ ": invalid type, want: *ExtendedMsg, got: " ++ request.typeName)
        ErrInvalidRequest)), w),
   none)

/-! ### Concrete library instances, used to run the executor on examples -/

/-- The table `RcodeToString` of the DNS library (github.com/miekg/dns, `msg.go`),
which names result code 0 `NOERROR`. -/
def RcodeToString : List (Int × String) :=
  [(0, "NOERROR"), (1, "FORMERR"), (2, "SERVFAIL"), (3, "NXDOMAIN"), (4, "NOTIMP"),
   (5, "REFUSED"), (6, "YXDOMAIN"), (7, "YXRRSET"), (8, "NXRRSET"), (9, "NOTAUTH"),
   (10, "NOTZONE"), (16, "BADSIG"), (17, "BADKEY"), (18, "BADTIME"), (19, "BADMODE"),
   (20, "BADNAME"), (21, "BADALG"), (22, "BADTRUNC"), (23, "BADCOOKIE")]

/-- What one read on the connection yields: a message, or a read error. -/
inductive Arrival where
  | msg (r : Msg)
  | fail (err : GoError)
deriving DecidableEq, Repr

/-- A scripted network: the kind of connection (packet, as UDP, or stream, as
TCP), what the successive reads on it will yield, and the queries sent so far
with their destination. -/
structure Network where
  packetConn : Bool
  arrivals : List Arrival
  sent : List (String × Msg)
deriving DecidableEq, Repr

/-- A transport error, as a network client reports a timeout. -/
def errTimeout : GoError := .new 100 "i/o timeout"

/-- The error `dns.ErrId` of the DNS library. -/
def ErrId : GoError := .new 102 "dns: id mismatch"

/-- The reading half of `Client.Exchange` of the DNS library: a reply is
accepted only when its ID is the ID of the query `m`. On a packet connection
a reply with another ID is ignored and the next one is read (a timeout when
nothing is left); on a stream connection it is returned with `dns.ErrId`. -/
def readReply (packetConn : Bool) (m : Msg) :
    List Arrival → (Option Msg × Option GoError) × List Arrival
  | [] => ((none, some errTimeout), [])
  | .fail err :: rest => ((none, some err), rest)
  | .msg r :: rest =>
    if r.Id = m.Id then ((some r, none), rest)
    else if packetConn then readReply packetConn m rest
    else ((some r, some ErrId), rest)

/-- One exchange on the scripted network: the query is recorded as sent and
the reply to it is read. -/
def Network.Exchange (net : Network) (m : Msg) (addr : String) :
    (Option Msg × Option GoError) × Network :=
  let r := readReply net.packetConn m net.arrivals
  (r.1, { net with arrivals := r.2, sent := net.sent ++ [(addr, m)] })

/-- An executor in the style of the bender library (a dependency outside this
repository) over the scripted network: it checks the request type, performs
one exchange through the client, runs the response validator, and returns a
nil response with every error. -/
def benderCreateExecutor : CreateExecutor Network :=
  fun client responseValidator host _ request net =>
    match request with
    | .ptrMsg (some m) =>
      match client with
      | none => (.panic, net)
      | some _ =>
        match net.Exchange m host with
        | ((_, some err), net1) => (.ret (.nil, some err), net1)
        | ((resp, none), net1) =>
          match responseValidator (some m) resp with
          | .panic => (.panic, net1)
          | .ret (some err) => (.ret (.nil, some err), net1)
          | .ret none => (.ret (.ptrMsg resp, none), net1)
    | .ptrMsg none => (.panic, net)
    | other =>
      (.ret (.nil, some (.new 101
        ("invalid request type " ++ other.typeName ++ ", want: *dns.Msg"))), net)

/-- An executor that counts its invocations in the state and echoes the request. -/
def countingCreateExecutor : CreateExecutor Nat :=
  fun _ _ _ _ request calls => (.ret (request, none), calls + 1)

/-- A DNS tester after `Before`, for the examples. -/
def exampleTester : Tester :=
  { Target := "127.0.0.1:53"
    Timeout := 1000000000
    Protocol := "udp"
    client := some
      { ReadTimeout := 1000000000
        DialTimeout := 1000000000
        WriteTimeout := 1000000000
        Net := "udp" } }

/-- A DNS message for the examples, with the given transaction ID and result code. -/
def exampleMsg (id : Nat) (rcode : Int) : Msg :=
  { Id := id, Rcode := rcode, Question := ["example.com. IN A"] }

/-- A packet network on which the given reply arrives next. -/
def replyingNetwork (reply : Msg) : Network :=
  { packetConn := true, arrivals := [.msg reply], sent := [] }

/-- A network on which no reply arrives: the next exchange times out. -/
def silentNetwork : Network :=
  { packetConn := true, arrivals := [], sent := [] }

/-- The network after the query with ID 42 has been sent and answered. -/
def answeredNetwork : Network :=
  { packetConn := true, arrivals := [], sent := [("127.0.0.1:53", exampleMsg 42 0)] }

end Dns

/-! ## HTTP tester (`tester/http/tester.go`) -/

namespace Http

/-- A response body (`io.ReadCloser`) as the stream it still holds: the chunks
that successive `Read` calls deliver, then the error every later `Read`
returns: `io.EOF` at the regular end of the body, another error when reading fails. -/
structure Body where
  pending : List (List UInt8)
  final : GoError
deriving DecidableEq, Repr

/-- One call of `Read`: the bytes delivered, the error, and the body afterwards. -/
def Body.Read (b : Body) : (List UInt8 × Option GoError) × Body :=
  match b.pending with
  | chunk :: rest => ((chunk, none), { b with pending := rest })
  | [] => (([], some b.final), b)

/-- The loop of `ioutil.Discard.ReadFrom`, which `io.Copy(ioutil.Discard, r)`
runs: read until an error; `io.EOF` ends the copy without error. The chunks
still pending are the loop variable; `n` counts the bytes read so far. -/
def discardLoop (final : GoError) : List (List UInt8) → Nat → (Nat × Option GoError) × Body
  | chunk :: rest, n => discardLoop final rest (n + chunk.length)
  | [], n =>
    if final = ioEOF then ((n, none), { pending := [], final := final })
    else ((n, some final), { pending := [], final := final })

/-- The call `io.Copy(ioutil.Discard, body)`: bytes copied, error, body afterwards. -/
def ioCopyDiscard (body : Body) : (Nat × Option GoError) × Body :=
  discardLoop body.final body.pending 0

/-- The type `http.Response`: the fields the tester reads. A value stands for a
non-nil `*http.Response` with a non-nil `Body`, as the HTTP client delivers it. -/
structure Response where
  Status : String
  StatusCode : Int
  Body : Body
deriving DecidableEq, Repr

/-- The type `http.Client`. -/
structure Client where
  Timeout : Int
deriving DecidableEq, Repr

/-- The type `http.Transport`; the tester only ever passes a nil pointer to it. -/
structure Transport where
  MaxIdleConns : Int
deriving DecidableEq, Repr

/-- Values of type `interface{}` handed to a validator as the request. -/
inductive Value where
  | nil
  | ptrRequest (method url : String)
  | other (typeName : String)
deriving DecidableEq, Repr

/-- The type `ResponseValidator` of the bender library:
`func(request interface{}, resp *http.Response) error`; the body after the
call is returned with the error. -/
abbrev ResponseValidator := Value → Response → Option GoError × Body

/-- Tester is a load tester for HTTP. -/
structure Tester where
  Timeout : Int
  Validator : Option ResponseValidator
  client : Option Client

/-- The constant httpStatusOK is the HTTP correct response status code. -/
def httpStatusOK : Int := 200

/-- ErrInvalidResponse is raised when a request returns a code different than 200. -/
def ErrInvalidResponse : GoError := .new 3 "invalid response status"

/-- Before is called before the first test. -/
def Tester.Before (t : Tester) (_ : Value) : Tester × Option GoError :=
  ({ t with client := some { Timeout := t.Timeout } }, none)

/-- After is called after all tests are finished. -/
def Tester.After (t : Tester) (_ : Value) : Tester := t

/-- BeforeEach is called before every test. -/
def Tester.BeforeEach (t : Tester) (_ : Value) : Tester × Option GoError := (t, none)

/-- AfterEach is called after every test. -/
def Tester.AfterEach (t : Tester) (_ : Value) : Tester := t

/-- A default validator checks if response type is 200 OK, reads the whole body
to force download. -/
def validator (_ : Value) (response : Response) : Option GoError × Body :=
  if response.StatusCode ≠ httpStatusOK then
    (some (.wrap
      (ErrInvalidResponse.Error ++ ", want: \"200 OK\", got: \"" ++ response.Status ++ "\"")
      ErrInvalidResponse), response.Body)
  else
    let r := ioCopyDiscard response.Body
    (r.1.2, r.2)

/-- RequestExecutor returns a request executor. The library function
`protocol.CreateExecutor(tr, client, validator)` is the parameter
`createExecutor`; `ε` is the type of the executors it builds. -/
def Tester.RequestExecutor {ε : Type}
    (createExecutor : Option Transport → Option Client → ResponseValidator → ε)
    (t : Tester) (_ : Value) : ε × Option GoError :=
  match t.Validator with
  | none => (createExecutor none t.client validator, none)
  | some v => (createExecutor none t.client v, none)

/-- An executor in the style of the bender library over a response already
received: it runs the response validator and returns a nil response with
the validator's error. -/
def benderCreateExecutor (_ : Option Transport) (_ : Option Client)
    (responseValidator : ResponseValidator) :
    Value → Response → Option Response × Option GoError :=
  fun request resp =>
    match responseValidator request resp with
    | (some err, _) => (none, some err)
    | (none, body) => (some { resp with Body := body }, none)

/-- A custom validator that accepts every response without reading the body. -/
def acceptAll : ResponseValidator := fun _ response => (none, response.Body)

/-- A body of ten chunks of 1024 bytes that ends regularly. -/
def tenKilobyteBody : Body :=
  { pending := List.replicate 10 (List.replicate 1024 0), final := ioEOF }

/-- The error of a connection that breaks while the body is read. -/
def errUnexpectedEOF : GoError := .new 4 "unexpected EOF"

end Http

end Fbender

/-! ## Properties -/

namespace Fbender

/-- Every wrapped error is, in the sense of `errors.Is`, its cause. -/
theorem GoError.is_wrap_self (text : String) (cause : GoError) :
    (GoError.wrap text cause).Is cause = true := by
  cases cause <;> simp [GoError.Is]

namespace Http

/-- The discard loop consumes every pending chunk, whatever the count so far. -/
theorem discardLoop_body (final : GoError) (chunks : List (List UInt8)) (n : Nat) :
    (discardLoop final chunks n).2 = { pending := [], final := final } := by
  induction chunks generalizing n with
  | nil => unfold discardLoop; split <;> rfl
  | cons chunk rest ih => unfold discardLoop; exact ih _

/-- The discard loop reports the final error of the stream, except `io.EOF`. -/
theorem discardLoop_err (final : GoError) (chunks : List (List UInt8)) (n : Nat) :
    (discardLoop final chunks n).1.2 = if final = ioEOF then none else some final := by
  induction chunks generalizing n with
  | nil => unfold discardLoop; split <;> rfl
  | cons chunk rest ih => unfold discardLoop; exact ih _

end Http

namespace Dns

/-- A reply that the reading loop accepts has the ID of the query. -/
theorem readReply_success_id (packetConn : Bool) (m : Msg) (arrivals rest : List Arrival)
    (X : Msg) (h : readReply packetConn m arrivals = ((some X, none), rest)) :
    X.Id = m.Id := by
  induction arrivals with
  | nil => simp [readReply] at h
  | cons a tl ih =>
    cases a with
    | fail err => simp [readReply] at h
    | msg r =>
      unfold readReply at h
      by_cases hid : r.Id = m.Id
      · rw [if_pos hid] at h
        have hr : r = X := by
          have := congrArg (fun p => p.1.1) h
          simpa using this
        rw [← hr]; exact hid
      · rw [if_neg hid] at h
        cases packetConn with
        | true => exact ih (by simpa using h)
        | false => simp at h

/-- A successful exchange delivers a reply with the ID of the query. -/
theorem exchange_success_id (net : Network) (m : Msg) (addr : String) (X : Msg)
    (net1 : Network) (h : net.Exchange m addr = ((some X, none), net1)) :
    X.Id = m.Id := by
  unfold Network.Exchange at h
  have h1 : (readReply net.packetConn m net.arrivals).1 = (some X, none) :=
    congrArg Prod.fst h
  exact readReply_success_id net.packetConn m net.arrivals
    (readReply net.packetConn m net.arrivals).2 X (Prod.ext h1 rfl)

/-- A reply with another ID than the query is no successful exchange: on a
packet connection it is ignored and the exchange times out, on a stream
connection the exchange fails with `dns.ErrId`. -/
theorem exchange_other_id_fails :
    (replyingNetwork (exampleMsg 43 0)).Exchange (exampleMsg 42 0) exampleTester.Target
      = ((none, some errTimeout), answeredNetwork)
    ∧ (Network.Exchange { packetConn := false, arrivals := [.msg (exampleMsg 43 0)], sent := [] }
        (exampleMsg 42 0) exampleTester.Target).1 = (some (exampleMsg 43 0), some ErrId) := by
  decide

/-- The counting executor is invoked once for a request that is a `*ExtendedMsg`. -/
theorem countingCreateExecutor_counts :
    ((Tester.RequestExecutor countingCreateExecutor RcodeToString exampleTester .nil).1 7
      (.ptrExtendedMsg (some (ExtendedMsg.mk (exampleMsg 42 0) (-1)))) 0).2 = 1 := by
  decide

/-- C1: when the inner executor succeeds with a `*dns.Msg` response `X`, the
executor built by the DNS `Tester.RequestExecutor` returns `X` with an error
that is nil if and only if the expected code is -1 or equals the code of `X`. -/
theorem C1_executor_nil_error_iff {σ : Type} (ce : CreateExecutor σ)
    (tbl : List (Int × String)) (t : Tester) (opts : Value) (n : Int)
    (env : ExtendedMsg) (X : Msg) (w w1 : σ)
    (h : ce t.client validator t.Target n (.ptrMsg (some env.Msg)) w
      = (.ret (.ptrMsg (some X), none), w1)) :
    ∃ e : Option GoError,
      (Tester.RequestExecutor ce tbl t opts).1 n (.ptrExtendedMsg (some env)) w
        = (.ret (.ptrMsg (some X), e), w1)
      ∧ (e = none ↔ (env.Rcode = -1 ∨ X.Rcode = env.Rcode)) := by
  by_cases hE : env.Rcode = -1
  · exact ⟨none, by simp [Tester.RequestExecutor, h, hE], by simp [hE]⟩
  · by_cases hX : env.Rcode = X.Rcode
    · exact ⟨none, by simp [Tester.RequestExecutor, h, hE, hX], by simp [hX]⟩
    · refine ⟨some (.wrap
        (ErrInvalidResponse.Error ++ ": invalid rcode want: "
          ++ goQuote (mapIndex tbl env.Rcode) ++ ", got: " ++ goQuote (mapIndex tbl X.Rcode))
        ErrInvalidResponse), by simp [Tester.RequestExecutor, h, hE, hX], ?_⟩
      constructor
      · intro hn; cases hn
      · rintro (h1 | h1)
        · exact absurd h1 hE
        · exact absurd h1.symm hX

/-- C1, scenario: request ID 42 with expected code -1, answered by ID 42 with
code NXDOMAIN (3), succeeds. -/
theorem C1_witness :
    benderCreateExecutor exampleTester.client validator exampleTester.Target 7
        (.ptrMsg (some (ExtendedMsg.mk (exampleMsg 42 0) (-1)).Msg))
        (replyingNetwork (exampleMsg 42 3))
      = (.ret (.ptrMsg (some (exampleMsg 42 3)), none), answeredNetwork)
    ∧ (Tester.RequestExecutor benderCreateExecutor RcodeToString exampleTester .nil).1 7
        (.ptrExtendedMsg (some (ExtendedMsg.mk (exampleMsg 42 0) (-1))))
        (replyingNetwork (exampleMsg 42 3))
      = (.ret (.ptrMsg (some (exampleMsg 42 3)), none), answeredNetwork) := by
  refine ⟨by decide, ?_⟩
  obtain ⟨e, he, hiff⟩ := C1_executor_nil_error_iff benderCreateExecutor RcodeToString
    exampleTester .nil 7 (ExtendedMsg.mk (exampleMsg 42 0) (-1)) (exampleMsg 42 3)
    (replyingNetwork (exampleMsg 42 3)) answeredNetwork (by decide)
  rw [he, hiff.mpr (Or.inl rfl)]

/-- C2: the DNS validator returns an error if and only if the transaction IDs
of request and response differ; the error then wraps `ErrInvalidResponse` and
its message names both IDs; the result is the same for every expected code of
an envelope around the request, so a mismatch is an error also for the sentinel -1. -/
theorem C2_validator_error_iff_id_differs (request response : Msg) :
    (∃ o : Option GoError,
      validator (some request) (some response) = .ret o
      ∧ (o ≠ none ↔ request.Id ≠ response.Id)
      ∧ (request.Id ≠ response.Id →
          ∃ err, o = some err ∧ err.Is ErrInvalidResponse = true
            ∧ err.Error = "invalid response: " ++ toString request.Id
                ++ ", want: " ++ toString response.Id))
    ∧ (∀ E : Int, validator (some (ExtendedMsg.mk request E).Msg) (some response)
        = validator (some request) (some response))
    ∧ (request.Id ≠ response.Id →
        validator (some (ExtendedMsg.mk request (-1)).Msg) (some response) ≠ .ret none) := by
  by_cases hid : request.Id = response.Id
  · refine ⟨⟨none, by simp [validator, hid], by simp [hid], fun h => absurd hid h⟩,
      fun _ => rfl, fun h => absurd hid h⟩
  · refine ⟨⟨some (.wrap
        (ErrInvalidResponse.Error ++ ": " ++ toString request.Id ++ ", want: "
          ++ toString response.Id) ErrInvalidResponse),
      by simp [validator, hid], by simp [hid],
      fun _ => ⟨_, rfl, GoError.is_wrap_self _ _, rfl⟩⟩, fun _ => rfl, fun _ => ?_⟩
    simp [validator, hid]

/-- C2, example: request ID 42 and response ID 43 give an error also in an
envelope with expected code -1. -/
theorem C2_witness :
    (exampleMsg 42 0).Id ≠ (exampleMsg 43 0).Id
    ∧ validator (some (ExtendedMsg.mk (exampleMsg 42 0) (-1)).Msg) (some (exampleMsg 43 0))
        ≠ .ret none :=
  ⟨by decide, (C2_validator_error_iff_id_differs (exampleMsg 42 0) (exampleMsg 43 0)).2.2
    (by decide)⟩

/-- C3: for a request that is not a `*ExtendedMsg` the DNS executor returns a
nil response and an error wrapping `ErrInvalidRequest` that names the expected
and the actual type; the state is unchanged and the result is the same for
every inner executor: the inner executor is not invoked. -/
theorem C3_invalid_request_no_inner_call {σ : Type} (ce : CreateExecutor σ)
    (tbl : List (Int × String)) (t : Tester) (opts : Value) (n : Int)
    (request : Value) (w : σ) (h : ∀ p, request ≠ .ptrExtendedMsg p) :
    (∃ err : GoError,
      (Tester.RequestExecutor ce tbl t opts).1 n request w = (.ret (.nil, some err), w)
      ∧ err.Is ErrInvalidRequest = true
      ∧ err.Error = "invalid request: invalid type, want: *ExtendedMsg, got: "
          ++ request.typeName)
    ∧ (∀ ce2 : CreateExecutor σ,
        (Tester.RequestExecutor ce2 tbl t opts).1 n request w
          = (Tester.RequestExecutor ce tbl t opts).1 n request w) := by
  cases request with
  | ptrExtendedMsg p => exact absurd rfl (h p)
  | nil => exact ⟨⟨_, rfl, GoError.is_wrap_self _ _, rfl⟩, fun _ => rfl⟩
  | ptrMsg q => exact ⟨⟨_, rfl, GoError.is_wrap_self _ _, rfl⟩, fun _ => rfl⟩
  | str s => exact ⟨⟨_, rfl, GoError.is_wrap_self _ _, rfl⟩, fun _ => rfl⟩
  | other name => exact ⟨⟨_, rfl, GoError.is_wrap_self _ _, rfl⟩, fun _ => rfl⟩

/-- C3, example: a plain string handed to the executor over an inner executor
that counts its invocations: the count stays 0. -/
theorem C3_witness :
    (∀ p, Value.str "hello" ≠ .ptrExtendedMsg p)
    ∧ ∃ err : GoError,
      (Tester.RequestExecutor countingCreateExecutor RcodeToString exampleTester .nil).1 7
          (.str "hello") 0 = (.ret (.nil, some err), 0)
      ∧ err.Is ErrInvalidRequest = true
      ∧ err.Error = "invalid request: invalid type, want: *ExtendedMsg, got: "
          ++ (Value.str "hello").typeName :=
  ⟨fun _ hp => Value.noConfusion hp,
   (C3_invalid_request_no_inner_call countingCreateExecutor RcodeToString exampleTester .nil 7
      (.str "hello") 0 (fun _ hp => Value.noConfusion hp)).1⟩

/-- C6, as stated, fails: for expected code 0 and a REFUSED response with
matching ID the message names `NOERROR` and `REFUSED` and does not contain
`SUCCESS`; for an expected code that the table does not hold (100000) the
message holds an empty name for it. -/
theorem C6_counterexample :
    (∃ err : GoError,
      (Tester.RequestExecutor benderCreateExecutor RcodeToString exampleTester .nil).1 7
          (.ptrExtendedMsg (some (ExtendedMsg.mk (exampleMsg 42 0) 0)))
          (replyingNetwork (exampleMsg 42 5))
        = (.ret (.ptrMsg (some (exampleMsg 42 5)), some err), answeredNetwork)
      ∧ err.Error = "invalid response: invalid rcode want: \"NOERROR\", got: \"REFUSED\""
      ∧ ¬ ("SUCCESS".data <:+: err.Error.data))
    ∧ (∃ err : GoError,
      (Tester.RequestExecutor benderCreateExecutor RcodeToString exampleTester .nil).1 7
          (.ptrExtendedMsg (some (ExtendedMsg.mk (exampleMsg 42 0) 100000)))
          (replyingNetwork (exampleMsg 42 5))
        = (.ret (.ptrMsg (some (exampleMsg 42 5)), some err), answeredNetwork)
      ∧ err.Error = "invalid response: invalid rcode want: \"\", got: \"REFUSED\"") :=
  ⟨⟨.wrap "invalid response: invalid rcode want: \"NOERROR\", got: \"REFUSED\""
      ErrInvalidResponse, by decide, rfl, by decide⟩,
   ⟨.wrap "invalid response: invalid rcode want: \"\", got: \"REFUSED\""
      ErrInvalidResponse, by decide, rfl⟩⟩

/-- C6, amended: for an expected code other than -1 and a response whose code
differs from it, the executor returns the response with an error that wraps
`ErrInvalidResponse` and whose message holds, in quotes, the entries of the
table `RcodeToString` for the expected and for the actual code (the empty
string for a code the table does not hold), never the integers; with the
table of the DNS library, expected code 0 and a REFUSED response give the
names `NOERROR` and `REFUSED`. -/
theorem C6_rcode_mismatch_message {σ : Type} (ce : CreateExecutor σ)
    (tbl : List (Int × String)) (t : Tester) (opts : Value) (n : Int)
    (env : ExtendedMsg) (X : Msg) (w w1 : σ)
    (h : ce t.client validator t.Target n (.ptrMsg (some env.Msg)) w
      = (.ret (.ptrMsg (some X), none), w1))
    (hE : env.Rcode ≠ -1) (hX : X.Rcode ≠ env.Rcode) :
    (∃ err : GoError,
      (Tester.RequestExecutor ce tbl t opts).1 n (.ptrExtendedMsg (some env)) w
        = (.ret (.ptrMsg (some X), some err), w1)
      ∧ err.Is ErrInvalidResponse = true
      ∧ err.Error = "invalid response: invalid rcode want: "
          ++ goQuote (mapIndex tbl env.Rcode) ++ ", got: " ++ goQuote (mapIndex tbl X.Rcode))
    ∧ (env.Rcode = 0 → X.Rcode = 5 →
        ∃ err : GoError,
          (Tester.RequestExecutor ce RcodeToString t opts).1 n (.ptrExtendedMsg (some env)) w
            = (.ret (.ptrMsg (some X), some err), w1)
          ∧ err.Error
            = "invalid response: invalid rcode want: \"NOERROR\", got: \"REFUSED\"") := by
  have hX2 : ¬ env.Rcode = X.Rcode := fun e => hX e.symm
  refine ⟨⟨.wrap
      (ErrInvalidResponse.Error ++ ": invalid rcode want: "
        ++ goQuote (mapIndex tbl env.Rcode) ++ ", got: " ++ goQuote (mapIndex tbl X.Rcode))
      ErrInvalidResponse, by simp [Tester.RequestExecutor, h, hE, hX2],
      GoError.is_wrap_self _ _, rfl⟩, fun h0 h5 => ?_⟩
  refine ⟨.wrap
      (ErrInvalidResponse.Error ++ ": invalid rcode want: "
        ++ goQuote (mapIndex RcodeToString env.Rcode) ++ ", got: "
        ++ goQuote (mapIndex RcodeToString X.Rcode))
      ErrInvalidResponse, by simp [Tester.RequestExecutor, h, hE, hX2], ?_⟩
  rw [h0, h5]
  rfl

/-- C6, example: expected code 0 (not -1) and a REFUSED (5) response. -/
theorem C6_witness :
    benderCreateExecutor exampleTester.client validator exampleTester.Target 7
        (.ptrMsg (some (ExtendedMsg.mk (exampleMsg 42 0) 0).Msg))
        (replyingNetwork (exampleMsg 42 5))
      = (.ret (.ptrMsg (some (exampleMsg 42 5)), none), answeredNetwork)
    ∧ (ExtendedMsg.mk (exampleMsg 42 0) 0).Rcode ≠ -1
    ∧ (exampleMsg 42 5).Rcode ≠ (ExtendedMsg.mk (exampleMsg 42 0) 0).Rcode
    ∧ ∃ err : GoError,
      (Tester.RequestExecutor benderCreateExecutor RcodeToString exampleTester .nil).1 7
          (.ptrExtendedMsg (some (ExtendedMsg.mk (exampleMsg 42 0) 0)))
          (replyingNetwork (exampleMsg 42 5))
        = (.ret (.ptrMsg (some (exampleMsg 42 5)), some err), answeredNetwork)
      ∧ err.Is ErrInvalidResponse = true
      ∧ err.Error = "invalid response: invalid rcode want: "
          ++ goQuote (mapIndex RcodeToString (ExtendedMsg.mk (exampleMsg 42 0) 0).Rcode)
          ++ ", got: " ++ goQuote (mapIndex RcodeToString (exampleMsg 42 5).Rcode) :=
  ⟨by decide, by decide, by decide,
   (C6_rcode_mismatch_message benderCreateExecutor RcodeToString exampleTester .nil 7
      (ExtendedMsg.mk (exampleMsg 42 0) 0) (exampleMsg 42 5)
      (replyingNetwork (exampleMsg 42 5)) answeredNetwork
      (by decide) (by decide) (by decide)).1⟩

/-- C7: whenever the exchange succeeds and validation of the response fails,
the executor returns the raw response, not nil, together with an error
wrapping `ErrInvalidResponse`. For every inner executor: on a result-code
mismatch the response returned is exactly the value the inner executor
returned. Over the client of the DNS library: a successful exchange delivers
a reply with the ID of the query, so the validator accepts it (an identifier
mismatch is a failed exchange), and the executor returns that reply with an
error that is not nil exactly on a result-code mismatch. -/
theorem C7_raw_response_with_validation_error (tbl : List (Int × String)) (t : Tester)
    (opts : Value) (n : Int) (env : ExtendedMsg) :
    (∀ (σ : Type) (ce : CreateExecutor σ) (w w1 : σ) (X : Msg),
      ce t.client validator t.Target n (.ptrMsg (some env.Msg)) w
        = (.ret (.ptrMsg (some X), none), w1) →
      env.Rcode ≠ -1 → env.Rcode ≠ X.Rcode →
      ∃ err : GoError,
        (Tester.RequestExecutor ce tbl t opts).1 n (.ptrExtendedMsg (some env)) w
          = (.ret (.ptrMsg (some X), some err), w1)
        ∧ err.Is ErrInvalidResponse = true
        ∧ Value.ptrMsg (some X) ≠ Value.nil)
    ∧ (∀ (c : Client) (net net1 : Network) (X : Msg),
      t.client = some c →
      net.Exchange env.Msg t.Target = ((some X, none), net1) →
      validator (some env.Msg) (some X) = .ret none
      ∧ ∃ e : Option GoError,
        (Tester.RequestExecutor benderCreateExecutor tbl t opts).1 n
            (.ptrExtendedMsg (some env)) net
          = (.ret (.ptrMsg (some X), e), net1)
        ∧ (e ≠ none ↔ (env.Rcode ≠ -1 ∧ env.Rcode ≠ X.Rcode))
        ∧ (∀ err : GoError, e = some err → err.Is ErrInvalidResponse = true)
        ∧ Value.ptrMsg (some X) ≠ Value.nil) := by
  constructor
  · intro σ ce w w1 X h hE hX
    exact ⟨.wrap
      (ErrInvalidResponse.Error ++ ": invalid rcode want: "
        ++ goQuote (mapIndex tbl env.Rcode) ++ ", got: " ++ goQuote (mapIndex tbl X.Rcode))
      ErrInvalidResponse, by simp [Tester.RequestExecutor, h, hE, hX],
      GoError.is_wrap_self _ _, fun hn => Value.noConfusion hn⟩
  · intro c net net1 X hc hx
    have hid : X.Id = env.Msg.Id := exchange_success_id net env.Msg t.Target X net1 hx
    have hval : validator (some env.Msg) (some X) = .ret none := by
      simp [validator, hid]
    have hin : benderCreateExecutor t.client validator t.Target n
        (.ptrMsg (some env.Msg)) net = (.ret (.ptrMsg (some X), none), net1) := by
      simp [benderCreateExecutor, hc, hx, hval]
    refine ⟨hval, ?_⟩
    by_cases hE : env.Rcode = -1
    · exact ⟨none, by simp [Tester.RequestExecutor, hin, hE], by simp [hE],
        fun err he => Option.noConfusion he, fun hn => Value.noConfusion hn⟩
    · by_cases hX : env.Rcode = X.Rcode
      · exact ⟨none, by simp [Tester.RequestExecutor, hin, hE, hX], by simp [hX],
          fun err he => Option.noConfusion he, fun hn => Value.noConfusion hn⟩
      · refine ⟨some (.wrap
            (ErrInvalidResponse.Error ++ ": invalid rcode want: "
              ++ goQuote (mapIndex tbl env.Rcode) ++ ", got: "
              ++ goQuote (mapIndex tbl X.Rcode))
            ErrInvalidResponse), by simp [Tester.RequestExecutor, hin, hE, hX],
          by simp [hE, hX], fun err he => ?_, fun hn => Value.noConfusion hn⟩
        cases he
        exact GoError.is_wrap_self _ _

/-- C7, example: expected code 3 (NXDOMAIN) and a SERVFAIL (2) reply with the
ID of the query: the exchange succeeds and the reply received comes back
with the validation error. -/
theorem C7_witness :
    exampleTester.client = some
        { ReadTimeout := 1000000000, DialTimeout := 1000000000, WriteTimeout := 1000000000,
          Net := "udp" }
    ∧ (replyingNetwork (exampleMsg 42 2)).Exchange
          (ExtendedMsg.mk (exampleMsg 42 0) 3).Msg exampleTester.Target
        = ((some (exampleMsg 42 2), none), answeredNetwork)
    ∧ ∃ e : Option GoError,
      (Tester.RequestExecutor benderCreateExecutor RcodeToString exampleTester .nil).1 7
          (.ptrExtendedMsg (some (ExtendedMsg.mk (exampleMsg 42 0) 3)))
          (replyingNetwork (exampleMsg 42 2))
        = (.ret (.ptrMsg (some (exampleMsg 42 2)), e), answeredNetwork)
      ∧ (e ≠ none ↔ ((ExtendedMsg.mk (exampleMsg 42 0) 3).Rcode ≠ -1
          ∧ (ExtendedMsg.mk (exampleMsg 42 0) 3).Rcode ≠ (exampleMsg 42 2).Rcode))
      ∧ (∀ err : GoError, e = some err → err.Is ErrInvalidResponse = true)
      ∧ Value.ptrMsg (some (exampleMsg 42 2)) ≠ Value.nil :=
  ⟨rfl, by decide,
   ((C7_raw_response_with_validation_error RcodeToString exampleTester .nil 7
      (ExtendedMsg.mk (exampleMsg 42 0) 3)).2 _ (replyingNetwork (exampleMsg 42 2))
      answeredNetwork (exampleMsg 42 2) rfl (by decide)).2⟩

/-- C8: when the inner executor returns an error, the executor returns exactly
that error together with the inner executor's response value, whatever the
dynamic type of that value and whatever the expected code: neither the
response type check nor the result-code check is performed. -/
theorem C8_inner_error_passed_through {σ : Type} (ce : CreateExecutor σ)
    (tbl : List (Int × String)) (t : Tester) (opts : Value) (n : Int)
    (m : Msg) (E : Int) (resp : Value) (err : GoError) (w w1 : σ)
    (h : ce t.client validator t.Target n (.ptrMsg (some m)) w
      = (.ret (resp, some err), w1)) :
    (Tester.RequestExecutor ce tbl t opts).1 n
        (.ptrExtendedMsg (some (ExtendedMsg.mk m E))) w
      = (.ret (resp, some err), w1) := by
  simp [Tester.RequestExecutor, h]

/-- C8, example: the exchange times out; the timeout error comes back as it
is, with the nil response of the inner executor, for expected code 0. -/
theorem C8_witness :
    benderCreateExecutor exampleTester.client validator exampleTester.Target 7
        (.ptrMsg (some (exampleMsg 42 0))) silentNetwork
      = (.ret (.nil, some errTimeout), answeredNetwork)
    ∧ (Tester.RequestExecutor benderCreateExecutor RcodeToString exampleTester .nil).1 7
        (.ptrExtendedMsg (some (ExtendedMsg.mk (exampleMsg 42 0) 0))) silentNetwork
      = (.ret (.nil, some errTimeout), answeredNetwork) :=
  ⟨by decide,
   C8_inner_error_passed_through benderCreateExecutor RcodeToString exampleTester .nil 7
     (exampleMsg 42 0) 0 .nil errTimeout silentNetwork answeredNetwork (by decide)⟩

/-- C10, as stated, fails: for a DNS tester whose protocol is no transport
mode at all, `Before` returns a nil error. -/
theorem C10_counterexample :
    (Tester.Before
      { Target := "127.0.0.1:53", Timeout := 1000000000, Protocol := "no-such-network",
        client := none } .nil).2 = none := rfl

end Dns

/-- C10, amended: `Before` constructs the client from the configuration of the
tester (DNS: the three timeouts are `Timeout` and the network is `Protocol`;
HTTP: the timeout is `Timeout`), leaves the other fields as they are, and
always returns a nil error: the configuration is not validated. -/
theorem C10_before_builds_client_no_error (d : Dns.Tester) (o : Dns.Value)
    (h : Http.Tester) (o2 : Http.Value) :
    (d.Before o).2 = none
    ∧ (d.Before o).1.client = some
        { ReadTimeout := d.Timeout, DialTimeout := d.Timeout, WriteTimeout := d.Timeout,
          Net := d.Protocol }
    ∧ (d.Before o).1.Target = d.Target ∧ (d.Before o).1.Timeout = d.Timeout
    ∧ (d.Before o).1.Protocol = d.Protocol
    ∧ (h.Before o2).2 = none
    ∧ (h.Before o2).1.client = some { Timeout := h.Timeout }
    ∧ (h.Before o2).1.Timeout = h.Timeout
    ∧ (h.Before o2).1.Validator = h.Validator :=
  ⟨rfl, rfl, rfl, rfl, rfl, rfl, rfl, rfl, rfl⟩

namespace Http

/-- C4: for a response whose status code is not 200 the default validator
returns an error that wraps `ErrInvalidResponse` and whose message contains
the status line of the response, and it leaves the body as it was: nothing
is read. -/
theorem C4_non_200_is_error_body_untouched (request : Value) (response : Response)
    (h : response.StatusCode ≠ 200) :
    ∃ err : GoError,
      validator request response = (some err, response.Body)
      ∧ err.Is ErrInvalidResponse = true
      ∧ err.Error = "invalid response status, want: \"200 OK\", got: \""
          ++ response.Status ++ "\""
      ∧ response.Status.data <:+: err.Error.data := by
  refine ⟨.wrap
    (ErrInvalidResponse.Error ++ ", want: \"200 OK\", got: \"" ++ response.Status ++ "\"")
    ErrInvalidResponse, ?_, GoError.is_wrap_self _ _, rfl, ?_⟩
  · simp [validator, httpStatusOK, h]
  · refine ⟨(ErrInvalidResponse.Error ++ ", want: \"200 OK\", got: \"").data, "\"".data, ?_⟩
    simp [GoError.Error, String.data_append]

/-- C4, scenario: a response with status 500 fails with a message containing
the status line; the two pending chunks of the body stay pending. -/
theorem C4_witness :
    (500 : Int) ≠ 200
    ∧ ∃ err : GoError,
      validator .nil
          { Status := "500 Internal Server Error", StatusCode := 500,
            Body := { pending := [[60, 104], [62]], final := ioEOF } }
        = (some err, { pending := [[60, 104], [62]], final := ioEOF })
      ∧ err.Is ErrInvalidResponse = true
      ∧ err.Error = "invalid response status, want: \"200 OK\", got: \""
          ++ "500 Internal Server Error" ++ "\""
      ∧ "500 Internal Server Error".data <:+: err.Error.data :=
  ⟨by decide,
   C4_non_200_is_error_body_untouched .nil
     { Status := "500 Internal Server Error", StatusCode := 500,
       Body := { pending := [[60, 104], [62]], final := ioEOF } } (by decide)⟩

/-- C5: for a response with status code 200 the result of the default
validator is the result of `io.Copy(ioutil.Discard, body)`; when the body
ends regularly the validator returns no error and leaves the body fully
consumed, so that a further read delivers no data and `io.EOF`; when reading
the body fails the validator returns the read error. -/
theorem C5_status_200_drains_body (request : Value) (response : Response)
    (h : response.StatusCode = 200) :
    validator request response
        = ((ioCopyDiscard response.Body).1.2, (ioCopyDiscard response.Body).2)
    ∧ (response.Body.final = ioEOF →
        (validator request response).1 = none
        ∧ (validator request response).2.pending = []
        ∧ (validator request response).2.Read
            = (([], some ioEOF), (validator request response).2))
    ∧ (response.Body.final ≠ ioEOF →
        (validator request response).1 = some response.Body.final) := by
  have hv : validator request response
      = ((ioCopyDiscard response.Body).1.2, (ioCopyDiscard response.Body).2) := by
    simp [validator, httpStatusOK, h]
  have hb : (ioCopyDiscard response.Body).2 = { pending := [], final := response.Body.final } :=
    discardLoop_body _ _ _
  have he : (ioCopyDiscard response.Body).1.2
      = if response.Body.final = ioEOF then none else some response.Body.final :=
    discardLoop_err _ _ _
  refine ⟨hv, fun hf => ?_, fun hf => ?_⟩
  · rw [hv, hb, he, hf]
    exact ⟨rfl, rfl, rfl⟩
  · rw [hv, he, if_neg hf]

/-- C5, scenario: status 200 and a body of 10 KB that ends regularly: success,
the body is fully drained. -/
theorem C5_witness :
    (200 : Int) = 200
    ∧ tenKilobyteBody.final = ioEOF
    ∧ (validator .nil { Status := "200 OK", StatusCode := 200, Body := tenKilobyteBody }).1
        = none
    ∧ (validator .nil { Status := "200 OK", StatusCode := 200, Body := tenKilobyteBody }).2.pending
        = [] :=
  ⟨rfl, rfl,
   (((C5_status_200_drains_body .nil
      { Status := "200 OK", StatusCode := 200, Body := tenKilobyteBody } rfl).2.1 rfl).1),
   (((C5_status_200_drains_body .nil
      { Status := "200 OK", StatusCode := 200, Body := tenKilobyteBody } rfl).2.1 rfl).2.1)⟩

/-- C9: `RequestExecutor` of the HTTP tester returns no error; when `Validator`
is set the executor is built with that validator (the default one is not
used), and when `Validator` is nil it is built with the default validator. -/
theorem C9_custom_validator_overrides_default {ε : Type}
    (createExecutor : Option Transport → Option Client → ResponseValidator → ε)
    (t : Tester) (opts : Value) :
    (t.RequestExecutor createExecutor opts).2 = none
    ∧ (∀ v : ResponseValidator, t.Validator = some v →
        (t.RequestExecutor createExecutor opts).1 = createExecutor none t.client v)
    ∧ (t.Validator = none →
        (t.RequestExecutor createExecutor opts).1 = createExecutor none t.client validator) := by
  unfold Tester.RequestExecutor
  cases hv : t.Validator with
  | none => exact ⟨rfl, fun v hv2 => Option.noConfusion hv2, fun _ => rfl⟩
  | some v0 =>
    refine ⟨rfl, fun v hv2 => ?_, fun hv2 => Option.noConfusion hv2⟩
    cases hv2
    rfl

/-- C9, example: with a validator that accepts everything, a response with
status 500 passes the executor, which the default validator rejects. -/
theorem C9_witness :
    (Tester.mk 1000000000 (some acceptAll) none).Validator = some acceptAll
    ∧ ((Tester.mk 1000000000 (some acceptAll) none).RequestExecutor benderCreateExecutor .nil).1
        = benderCreateExecutor none none acceptAll
    ∧ (benderCreateExecutor none none acceptAll .nil
        { Status := "500 Internal Server Error", StatusCode := 500,
          Body := { pending := [], final := ioEOF } }).2 = none
    ∧ (validator .nil
        { Status := "500 Internal Server Error", StatusCode := 500,
          Body := { pending := [], final := ioEOF } }).1 ≠ none :=
  ⟨rfl,
   (C9_custom_validator_overrides_default benderCreateExecutor
      (Tester.mk 1000000000 (some acceptAll) none) .nil).2.1 acceptAll rfl,
   rfl, by decide⟩

end Http

end Fbender
